import Mathlib

/-
Shallow embedding of the in-scope logic of the skill-map backend service
(`app/services/skill_map.py` of `something-unihack-backend`):

* `determine_status`            — `SkillMapService._determine_status`
* `create_nodes_from_llm_output`— `SkillMapService._create_nodes_from_llm_output`
* `build_daily_tasks`           — the daily-task construction loop of
                                  `SkillMapService.generate_skill_program`
* `update_task_progress`        — the pure core of
                                  `SkillMapService.update_task_progress`
                                  (progress application + completion-date shift)

Python floats are modelled as exact rationals (`ℚ`); Python `datetime`
values as rational day counts, so that `timedelta(days = k)` is addition
of the integer `k`.  Python dictionaries of parsed JSON are modelled as
insertion-ordered association lists, and the loosely-typed attribute bags
produced by the LLM agent as records of `Option`-typed fields (`none` =
key absent).  Exceptions raised by the Python code are modelled by the
`Except PyErr` monad: `d[k]` on a missing key raises `KeyError(k)`, and
`int(s)` on a non-numeric string raises a `ValueError`.
-/

namespace SkillMapSvc

/-- A Python exception escaping the service code: `KeyError(key)` from a
`d[key]` access on a missing key, or `ValueError(msg)` from `int(...)`. -/
inductive PyErr where
  | keyError (key : String)
  | valueError (msg : String)
  deriving DecidableEq, Repr

/-- `SkillResource` (app/api/models.py): type tag and name required,
URL and description optional. -/
structure SkillResource where
  type_ : String
  name : String
  url : Option String
  description : Option String
  deriving DecidableEq, Repr

/-- `SkillNode` (app/api/models.py). -/
structure SkillNode where
  id : String
  name : String
  description : String
  estimated_hours : ℚ
  parent_id : Option String
  children : List String
  resources : List SkillResource
  depth : Int
  progress : ℚ
  status : String
  deriving DecidableEq, Repr

/-- Modelled from the spec: the `DailyTask` model class is referenced by
`skill_map.py` but its declaration is missing from the source tree
(presumably intended for app/api/models.py).  Fields follow spec §3
(30-day-program variant) and the keyword arguments of every
`DailyTask(...)` construction in `skill_map.py`. -/
structure DailyTask where
  day : Int
  name : String
  description : String
  difficulty_level : String
  estimated_hours : ℚ
  resources : List SkillResource
  progress : ℚ
  status : String
  deriving DecidableEq, Repr

/-- `ProgressData` (app/api/models.py); `notes` and `assessment_results`
are never read by the service and are omitted. -/
structure ProgressData where
  node_id : String
  completion_percentage : ℚ
  time_spent : ℚ
  deriving DecidableEq, Repr

/-- `ContextChange` (app/api/models.py); `affected_period` is never read
by the service and is omitted. -/
structure ContextChange where
  change_type : String
  description : String
  impact_factor : ℚ
  deriving DecidableEq, Repr

/-- Raw attribute bag for one resource of the LLM output
(`resource` dict in `skill_map.py`); `none` = key absent. -/
structure RawResource where
  type_ : Option String
  name : Option String
  url : Option String
  description : Option String
  deriving DecidableEq, Repr

/-- Raw attribute bag for one skill of the LLM output
(`skill_data` dict in `_create_nodes_from_llm_output`); `none` = key absent. -/
structure RawNodeData where
  name : Option String
  description : Option String
  estimated_hours : Option ℚ
  parent_id : Option String
  children : Option (List String)
  resources : Option (List RawResource)
  depth : Option Int
  deriving DecidableEq, Repr

/-- Raw attribute bag for one daily task of the LLM output
(`task_data` dict in `generate_skill_program`); `none` = key absent. -/
structure RawTaskData where
  day : Option Int
  name : Option String
  description : Option String
  difficulty_level : Option String
  estimated_hours : Option ℚ
  resources : Option (List RawResource)
  deriving DecidableEq, Repr

/-- Python `d[key]`: the value when the key is present, `KeyError(key)`
otherwise. -/
def py_getitem {α : Type} (o : Option α) (key : String) : Except PyErr α :=
  match o with
  | some v => Except.ok v
  | none => Except.error (PyErr.keyError key)

/-- A Python `for`-loop building a list element by element, where each
step may raise: stops at (and propagates) the first exception. -/
def mapExceptList {α β : Type} (f : α → Except PyErr β) : List α → Except PyErr (List β)
  | [] => Except.ok []
  | a :: as => do
    let b ← f a
    let bs ← mapExceptList f as
    Except.ok (b :: bs)

/-- `SkillMapService._determine_status` (skill_map.py lines 231–238). -/
def determine_status (completion_percentage : ℚ) : String :=
  if completion_percentage = 0 then "not_started"
  else if completion_percentage < 100 then "in_progress"
  else "completed"

/-- ASCII whitespace stripped by Python `int(str)`. -/
def py_whitespace (c : Char) : Bool :=
  c = ' ' || c = Char.ofNat 9 || c = Char.ofNat 10 ||
  c = Char.ofNat 11 || c = Char.ofNat 12 || c = Char.ofNat 13

/-- Digit run continuation for Python integer literals: after a digit, a
digit, a single underscore followed by a digit, or the end may follow. -/
def py_digit_tail : List Char → Bool
  | [] => true
  | c :: rest =>
    if c.isDigit then py_digit_tail rest
    else if c = '_' then
      match rest with
      | [] => false
      | d :: rest2 => d.isDigit && py_digit_tail rest2
    else false

/-- A non-empty digit run, with single underscores allowed between digits. -/
def py_digit_run (cs : List Char) : Bool :=
  match cs with
  | [] => false
  | c :: rest => c.isDigit && py_digit_tail rest

/-- Numeric value of a digit run (underscores dropped). -/
def py_digits_val (cs : List Char) : Nat :=
  (cs.filter (fun c => c ≠ '_')).foldl (fun acc c => 10 * acc + (c.toNat - 48)) 0

/-- Python `int(s)` on a string: optional surrounding whitespace, an
optional sign, then a digit run; `none` models the `ValueError` raised on
any other shape (restricted to ASCII digits/whitespace). -/
def py_int_of_string (s : String) : Option Int :=
  let cs := ((s.toList.dropWhile py_whitespace).reverse.dropWhile py_whitespace).reverse
  match cs with
  | '+' :: rest => if py_digit_run rest then some (py_digits_val rest : Int) else none
  | '-' :: rest => if py_digit_run rest then some (-(py_digits_val rest : Int)) else none
  | _ => if py_digit_run cs then some (py_digits_val cs : Int) else none

/-- Python `int(x)` on a number: truncation toward zero. -/
def py_trunc (q : ℚ) : Int := if q < 0 then Int.ceil q else Int.floor q

/-- The resource construction of `generate_skill_program` (lines 54–62):
`type` and `name` are `[]`-accesses (required); `url` and `description`
use `.get` with default `""`. -/
def build_resource_program (r : RawResource) : Except PyErr SkillResource := do
  let t ← py_getitem r.type_ "type"
  let n ← py_getitem r.name "name"
  Except.ok { type_ := t, name := n, url := some (r.url.getD ""),
              description := some (r.description.getD "") }

/-- The resource construction of `_create_nodes_from_llm_output`
(lines 204–212): `url` and `description` use `.get` with default `None`. -/
def build_resource_node (r : RawResource) : Except PyErr SkillResource := do
  let t ← py_getitem r.type_ "type"
  let n ← py_getitem r.name "name"
  Except.ok { type_ := t, name := n, url := r.url, description := r.description }

/-- One iteration of the loop of `_create_nodes_from_llm_output`
(lines 203–227): the resource list comprehension runs first, then the
`SkillNode(...)` construction, whose required fields are `[]`-accesses in
keyword order; `parent_id`, `children`, `depth` use `.get` defaults, and
`progress`/`status` are the constants `0.0`/`"not_started"`. -/
def build_node (p : String × RawNodeData) : Except PyErr (String × SkillNode) := do
  let resources ← mapExceptList build_resource_node (p.2.resources.getD [])
  let n ← py_getitem p.2.name "name"
  let d ← py_getitem p.2.description "description"
  let h ← py_getitem p.2.estimated_hours "estimated_hours"
  Except.ok (p.1,
    { id := p.1, name := n, description := d, estimated_hours := h,
      parent_id := p.2.parent_id, children := p.2.children.getD [],
      resources := resources, depth := p.2.depth.getD 0,
      progress := 0, status := "not_started" })

/-- `SkillMapService._create_nodes_from_llm_output` (lines 198–229): the
insertion-ordered node dictionary built from the raw skills mapping. -/
def create_nodes_from_llm_output (skills : List (String × RawNodeData)) :
    Except PyErr (List (String × SkillNode)) :=
  mapExceptList build_node skills

/-- One iteration of the daily-task loop of `generate_skill_program`
(lines 53–75): resources first, then the `DailyTask(...)` construction
with required `[]`-accesses in keyword order and constant
`progress = 0.0`, `status = "not_started"`. -/
def build_daily_task (t : RawTaskData) : Except PyErr DailyTask := do
  let resources ← mapExceptList build_resource_program (t.resources.getD [])
  let day ← py_getitem t.day "day"
  let n ← py_getitem t.name "name"
  let d ← py_getitem t.description "description"
  let diff ← py_getitem t.difficulty_level "difficulty_level"
  let h ← py_getitem t.estimated_hours "estimated_hours"
  Except.ok { day := day, name := n, description := d, difficulty_level := diff,
              estimated_hours := h, resources := resources,
              progress := 0, status := "not_started" }

/-- The daily-task list of `generate_skill_program` (lines 51–75). -/
def build_daily_tasks (raw : List RawTaskData) : Except PyErr (List DailyTask) :=
  mapExceptList build_daily_task raw

/-- The inner loop of `update_task_progress` (lines 158–161): every task
whose `day` equals the reported day gets the reported percentage verbatim
and a freshly derived status. -/
def apply_report (tasks : List DailyTask) (day : Int) (cp : ℚ) : List DailyTask :=
  tasks.map (fun t =>
    if t.day = day then { t with progress := cp, status := determine_status cp } else t)

/-- The outer loop of `update_task_progress` (lines 155–161):
`int(progress.node_id)` runs first for each report — raising `ValueError`
on a non-numeric string — then the inner update loop; reports are applied
in batch order. -/
def apply_reports (tasks : List DailyTask) :
    List ProgressData → Except PyErr (List DailyTask)
  | [] => Except.ok tasks
  | p :: rest =>
    match py_int_of_string p.node_id with
    | none => Except.error
        (PyErr.valueError ("invalid literal for int() with base 10: " ++ p.node_id))
    | some day => apply_reports (apply_report tasks day p.completion_percentage) rest

/-- Lines 163–169 of `update_task_progress`: a present, non-empty batch
of context changes shifts the completion date by `int(total_impact * 30)`
days; `None` and `[]` are both falsy in `if context_changes:` and leave
the date untouched. -/
def adjust_completion_date (expected : ℚ)
    (context_changes : Option (List ContextChange)) : ℚ :=
  match context_changes with
  | none => expected
  | some ccs =>
    if ccs = [] then expected
    else expected + (py_trunc ((ccs.map (fun c => c.impact_factor)).sum * 30) : ℚ)

/-- Pure core of `SkillMapService.update_task_progress` (lines 154–191):
apply the progress reports to the stored daily tasks, then shift the
expected-completion date; the pair returned is the `daily_tasks` and
`expected_completion_date` of the persisted and returned `SkillProgram`.
An exception anywhere aborts the whole update before the store write. -/
def update_task_progress (tasks : List DailyTask) (expected : ℚ)
    (progress_data : List ProgressData)
    (context_changes : Option (List ContextChange)) :
    Except PyErr (List DailyTask × ℚ) := do
  let tasks2 ← apply_reports tasks progress_data
  Except.ok (tasks2, adjust_completion_date expected context_changes)

/-- Association-list lookup in a node dictionary. -/
def lookup_node (nodes : List (String × SkillNode)) (id : String) : Option SkillNode :=
  (nodes.find? (fun p => p.1 = id)).map (fun p => p.2)

/-- Stated from the words of spec §3/C5: re-derive the depth of a node from
its parent chain — a root (no parent) has depth 0, a child has the depth
of its parent plus one; `fuel` bounds the chain length, `none` = unresolvable. -/
def chain_depth (nodes : List (String × SkillNode)) : Nat → String → Option Nat
  | 0, _ => none
  | fuel + 1, id =>
    match lookup_node nodes id with
    | none => none
    | some n =>
      match n.parent_id with
      | none => some 0
      | some pid => (chain_depth nodes fuel pid).map (fun k => k + 1)

/-- Stated from the words of spec §3: for every non-root node the parent
identifier resolves within the map, and the concatenation of all
`children` lists is a permutation of the non-root identifiers — each
claimed exactly once, no orphans. -/
def tree_partition_invariant (nodes : List (String × SkillNode)) : Prop :=
  (∀ p ∈ nodes, p.2.parent_id = none ∨ ∃ q ∈ nodes, some q.1 = p.2.parent_id) ∧
  List.Perm (nodes.foldr (fun p acc => p.2.children ++ acc) [])
    ((nodes.filter (fun p => p.2.parent_id.isSome)).map (fun p => p.1))

instance (nodes : List (String × SkillNode)) : Decidable (tree_partition_invariant nodes) := by
  unfold tree_partition_invariant
  infer_instance

/-- Stated from the words of spec §3: the day numbers of the program are
exactly 1..30 with no gaps or duplicates, in ascending order. -/
def day_invariant (tasks : List DailyTask) : Prop :=
  tasks.map (fun t => t.day) = (List.range 30).map (fun i => (i : Int) + 1)

instance (tasks : List DailyTask) : Decidable (day_invariant tasks) :=
  decidable_of_iff
    (tasks.map (fun t => t.day) = (List.range 30).map (fun i => (i : Int) + 1)) Iff.rfl

/-- All required fields of a raw resource are present. -/
def resource_fields_ok (r : RawResource) : Prop :=
  r.type_.isSome = true ∧ r.name.isSome = true

instance (r : RawResource) : Decidable (resource_fields_ok r) :=
  decidable_of_iff (r.type_.isSome = true ∧ r.name.isSome = true) Iff.rfl

/-- All required fields of a raw skill entry (and of its resources) are
present. -/
def node_fields_ok (d : RawNodeData) : Prop :=
  (∀ r ∈ d.resources.getD [], resource_fields_ok r) ∧
  d.name.isSome = true ∧ d.description.isSome = true ∧ d.estimated_hours.isSome = true

instance (d : RawNodeData) : Decidable (node_fields_ok d) :=
  decidable_of_iff ((∀ r ∈ d.resources.getD [], resource_fields_ok r) ∧
    d.name.isSome = true ∧ d.description.isSome = true ∧
    d.estimated_hours.isSome = true) Iff.rfl

/-- All required fields of a raw daily-task entry (and of its resources)
are present. -/
def task_fields_ok (t : RawTaskData) : Prop :=
  (∀ r ∈ t.resources.getD [], resource_fields_ok r) ∧
  t.day.isSome = true ∧ t.name.isSome = true ∧ t.description.isSome = true ∧
  t.difficulty_level.isSome = true ∧ t.estimated_hours.isSome = true

instance (t : RawTaskData) : Decidable (task_fields_ok t) :=
  decidable_of_iff ((∀ r ∈ t.resources.getD [], resource_fields_ok r) ∧
    t.day.isSome = true ∧ t.name.isSome = true ∧ t.description.isSome = true ∧
    t.difficulty_level.isSome = true ∧ t.estimated_hours.isSome = true) Iff.rfl

/-- A sample already-normalized daily task for concrete runs. -/
def sample_task : DailyTask :=
  { day := 1, name := "Basics", description := "d", difficulty_level := "Beginner",
    estimated_hours := 1, resources := [], progress := 0, status := "not_started" }

/-- Raw root entry of the spec §8 example tree. -/
def raw_root : RawNodeData :=
  { name := some "Go", description := some "d", estimated_hours := some 0,
    parent_id := none, children := some ["a"], resources := some [], depth := none }

/-- Raw child entry whose self-reported depth (5) disagrees with its
parent chain (depth 1). -/
def raw_child : RawNodeData :=
  { name := some "Basics", description := some "d2", estimated_hours := some 10,
    parent_id := some "root", children := some [], resources := some [], depth := some 5 }

/-- A two-entry raw tree: the §8 example with a lying depth on the child. -/
def ex_tree : List (String × RawNodeData) := [("root", raw_root), ("a", raw_child)]

/-- The root node the service builds from `raw_root`. -/
def ex_root_node : String × SkillNode :=
  ("root",
    { id := "root", name := "Go", description := "d", estimated_hours := 0,
      parent_id := none, children := ["a"], resources := [], depth := 0,
      progress := 0, status := "not_started" })

/-- The child node the service builds from `raw_child` — raw depth kept. -/
def ex_child_node : String × SkillNode :=
  ("a",
    { id := "a", name := "Basics", description := "d2", estimated_hours := 10,
      parent_id := some "root", children := [], resources := [], depth := 5,
      progress := 0, status := "not_started" })

/-- The node dictionary the service builds from `ex_tree`. -/
def ex_tree_nodes : List (String × SkillNode) := [ex_root_node, ex_child_node]

/-- A raw entry with every required field present whose `children` list
claims an identifier (`"x"`) that resolves nowhere. -/
def raw_claims_x : RawNodeData :=
  { name := some "A", description := some "d", estimated_hours := some 1,
    parent_id := none, children := some ["x"], resources := some [], depth := none }

/-- A raw tree in which two parents both claim the unresolvable child
`"x"` — the partition invariant of spec §3 fails twice over. -/
def ex_badtree : List (String × RawNodeData) :=
  [("p1", raw_claims_x), ("p2", raw_claims_x)]

/-- The node dictionary the service builds from `ex_badtree`. -/
def ex_badtree_nodes : List (String × SkillNode) :=
  [("p1",
    { id := "p1", name := "A", description := "d", estimated_hours := 1,
      parent_id := none, children := ["x"], resources := [], depth := 0,
      progress := 0, status := "not_started" }),
   ("p2",
    { id := "p2", name := "A", description := "d", estimated_hours := 1,
      parent_id := none, children := ["x"], resources := [], depth := 0,
      progress := 0, status := "not_started" })]

/-- A raw daily task with day number 42, all required fields present. -/
def raw_day42 : RawTaskData :=
  { day := some 42, name := some "t", description := some "d",
    difficulty_level := some "Hard", estimated_hours := some 1, resources := some [] }

/-- The daily task the service builds from `raw_day42`. -/
def task_day42 : DailyTask :=
  { day := 42, name := "t", description := "d", difficulty_level := "Hard",
    estimated_hours := 1, resources := [], progress := 0, status := "not_started" }

/-- A raw skill entry missing the required `name` field. -/
def raw_noname : RawNodeData :=
  { name := none, description := some "d", estimated_hours := some 1,
    parent_id := none, children := none, resources := none, depth := none }

/-- A raw skill entry with every required field present. -/
def raw_good : RawNodeData :=
  { name := some "G", description := some "d", estimated_hours := some 2,
    parent_id := none, children := none, resources := none, depth := none }

/-- A context change with impact factor 0.2. -/
def cc_travel : ContextChange :=
  { change_type := "travel", description := "trip", impact_factor := 1/5 }

/-- A context change with impact factor -0.5. -/
def cc_pace : ContextChange :=
  { change_type := "learning_pace", description := "faster", impact_factor := -1/2 }

/-- A progress report targeting day 7, which no sample task has. -/
def report_day7 : ProgressData :=
  { node_id := "7", completion_percentage := 50, time_spent := 0 }

/-- A progress report whose target is not the decimal string of an integer. -/
def report_bad : ProgressData :=
  { node_id := "day-1", completion_percentage := 50, time_spent := 0 }

end SkillMapSvc

namespace SkillMapSvc

theorem except_bind_ok {α β : Type} {e : Except PyErr α} {f : α → Except PyErr β} {b : β} :
    (e >>= f) = Except.ok b ↔ ∃ a, e = Except.ok a ∧ f a = Except.ok b := by
  cases e with
  | error err => simp [Bind.bind, Except.bind]
  | ok a => simp [Bind.bind, Except.bind]

theorem except_bind_error {α β : Type} {e : Except PyErr α} {f : α → Except PyErr β}
    {err : PyErr} (h : e = Except.error err) : (e >>= f) = Except.error err := by
  subst h; rfl

theorem py_getitem_ok {α : Type} {o : Option α} {key : String} {v : α}
    (h : py_getitem o key = Except.ok v) : o = some v := by
  cases o with
  | none => simp [py_getitem] at h
  | some w => simp [py_getitem] at h; rw [h]

theorem py_getitem_of_isSome {α : Type} {o : Option α} (key : String)
    (h : o.isSome = true) : py_getitem o key = Except.ok (o.get h) := by
  cases o with
  | none => simp at h
  | some w => rfl

theorem mapExceptList_ok_length {α β : Type} (f : α → Except PyErr β) :
    ∀ (l : List α) (res : List β), mapExceptList f l = Except.ok res →
      res.length = l.length := by
  intro l
  induction l with
  | nil =>
    intro res h
    simp [mapExceptList] at h
    simp [← h]
  | cons a as ih =>
    intro res h
    unfold mapExceptList at h
    rcases except_bind_ok.mp h with ⟨b, hb, h2⟩
    rcases except_bind_ok.mp h2 with ⟨bs, hbs, h3⟩
    have := Except.ok.inj h3
    rw [← this]
    simp [ih bs hbs]

theorem mapExceptList_ok_get {α β : Type} (f : α → Except PyErr β) :
    ∀ (l : List α) (res : List β), mapExceptList f l = Except.ok res →
      ∀ i (h1 : i < l.length) (h2 : i < res.length),
        f (l.get ⟨i, h1⟩) = Except.ok (res.get ⟨i, h2⟩) := by
  intro l
  induction l with
  | nil => intro res h i h1; exact absurd h1 (by simp)
  | cons a as ih =>
    intro res h i h1 h2
    unfold mapExceptList at h
    rcases except_bind_ok.mp h with ⟨b, hb, hrest⟩
    rcases except_bind_ok.mp hrest with ⟨bs, hbs, h3⟩
    have hres : b :: bs = res := Except.ok.inj h3
    subst hres
    cases i with
    | zero => simpa using hb
    | succ j =>
      have hj : j < as.length := Nat.lt_of_succ_lt_succ h1
      have hj2 : j < bs.length := Nat.lt_of_succ_lt_succ h2
      simpa using ih bs hbs j hj hj2

theorem mapExceptList_ok_mem {α β : Type} (f : α → Except PyErr β) :
    ∀ (l : List α) (res : List β), mapExceptList f l = Except.ok res →
      ∀ b ∈ res, ∃ a ∈ l, f a = Except.ok b := by
  intro l
  induction l with
  | nil =>
    intro res h b hb
    simp [mapExceptList] at h
    subst h
    simp at hb
  | cons a as ih =>
    intro res h b hb
    unfold mapExceptList at h
    rcases except_bind_ok.mp h with ⟨b0, hb0, hrest⟩
    rcases except_bind_ok.mp hrest with ⟨bs, hbs, h3⟩
    have hres : b0 :: bs = res := Except.ok.inj h3
    subst hres
    rcases List.mem_cons.mp hb with hcase | hcase
    · exact ⟨a, List.mem_cons_self a as, by rw [← hcase] at hb0; exact hb0⟩
    · rcases ih bs hbs b hcase with ⟨a2, ha2, hfa2⟩
      exact ⟨a2, List.mem_cons_of_mem a ha2, hfa2⟩

theorem mapExceptList_ok_of_forall {α β : Type} (f : α → Except PyErr β) :
    ∀ (l : List α), (∀ a ∈ l, ∃ b, f a = Except.ok b) →
      ∃ res, mapExceptList f l = Except.ok res := by
  intro l
  induction l with
  | nil => intro _; exact ⟨[], rfl⟩
  | cons a as ih =>
    intro h
    rcases h a (List.mem_cons_self a as) with ⟨b, hb⟩
    rcases ih (fun x hx => h x (List.mem_cons_of_mem a hx)) with ⟨bs, hbs⟩
    refine ⟨b :: bs, ?_⟩
    unfold mapExceptList
    rw [except_bind_ok]
    exact ⟨b, hb, except_bind_ok.mpr ⟨bs, hbs, rfl⟩⟩

theorem mapExceptList_append_error {α β : Type} (f : α → Except PyErr β) :
    ∀ (pre l : List α) (err : PyErr),
      (∀ a ∈ pre, ∃ b, f a = Except.ok b) →
      mapExceptList f l = Except.error err →
      mapExceptList f (pre ++ l) = Except.error err := by
  intro pre
  induction pre with
  | nil => intro l err _ h; simpa using h
  | cons a as ih =>
    intro l err hok h
    rcases hok a (List.mem_cons_self a as) with ⟨b, hb⟩
    have hrest := ih l err (fun x hx => hok x (List.mem_cons_of_mem a hx)) h
    show mapExceptList f (a :: (as ++ l)) = Except.error err
    unfold mapExceptList
    rw [hb]
    show (mapExceptList f (as ++ l)) >>= _ = Except.error err
    rw [hrest]
    rfl

theorem determine_status_of_ge100 {p : ℚ} (h : 100 ≤ p) :
    determine_status p = "completed" := by
  have hne : p ≠ 0 := by intro hc; rw [hc] at h; norm_num at h
  have hnlt : ¬ p < 100 := not_lt.mpr h
  simp [determine_status, hne, hnlt]

theorem determine_status_of_neg {p : ℚ} (h : p < 0) :
    determine_status p = "in_progress" := by
  have hne : p ≠ 0 := ne_of_lt h
  have hlt : p < 100 := lt_trans h (by norm_num)
  simp [determine_status, hne, hlt]

theorem build_resource_node_ok_of_fields (r : RawResource) (h : resource_fields_ok r) :
    ∃ s, build_resource_node r = Except.ok s := by
  rcases h with ⟨ht, hn⟩
  rcases Option.isSome_iff_exists.mp ht with ⟨t, hT⟩
  rcases Option.isSome_iff_exists.mp hn with ⟨n, hN⟩
  exact ⟨_, by unfold build_resource_node; rw [hT, hN]; rfl⟩

theorem build_resource_program_ok_of_fields (r : RawResource) (h : resource_fields_ok r) :
    ∃ s, build_resource_program r = Except.ok s := by
  rcases h with ⟨ht, hn⟩
  rcases Option.isSome_iff_exists.mp ht with ⟨t, hT⟩
  rcases Option.isSome_iff_exists.mp hn with ⟨n, hN⟩
  exact ⟨_, by unfold build_resource_program; rw [hT, hN]; rfl⟩

theorem build_node_ok {p : String × RawNodeData} {q : String × SkillNode}
    (h : build_node p = Except.ok q) :
    q.1 = p.1 ∧ q.2.id = p.1 ∧ q.2.parent_id = p.2.parent_id ∧
    q.2.children = p.2.children.getD [] ∧ q.2.depth = p.2.depth.getD 0 ∧
    q.2.progress = 0 ∧ q.2.status = "not_started" := by
  unfold build_node at h
  rcases except_bind_ok.mp h with ⟨rs, hrs, h2⟩
  rcases except_bind_ok.mp h2 with ⟨n, hn, h3⟩
  rcases except_bind_ok.mp h3 with ⟨d, hd, h4⟩
  rcases except_bind_ok.mp h4 with ⟨eh, heh, h5⟩
  have hq := Except.ok.inj h5
  rw [← hq]
  simp

theorem build_node_ok_of_fields (p : String × RawNodeData) (hp : node_fields_ok p.2) :
    ∃ q, build_node p = Except.ok q := by
  rcases hp with ⟨hres, hn, hd, hh⟩
  rcases mapExceptList_ok_of_forall build_resource_node (p.2.resources.getD [])
      (fun r hr => build_resource_node_ok_of_fields r (hres r hr)) with ⟨rs, hrs⟩
  rcases Option.isSome_iff_exists.mp hn with ⟨n, hN⟩
  rcases Option.isSome_iff_exists.mp hd with ⟨d, hD⟩
  rcases Option.isSome_iff_exists.mp hh with ⟨eh, hH⟩
  exact ⟨_, by unfold build_node; rw [hrs, hN, hD, hH]; rfl⟩

theorem build_daily_task_ok {t : RawTaskData} {q : DailyTask}
    (h : build_daily_task t = Except.ok q) :
    t.day = some q.day ∧ q.progress = 0 ∧ q.status = "not_started" := by
  unfold build_daily_task at h
  rcases except_bind_ok.mp h with ⟨rs, hrs, h2⟩
  rcases except_bind_ok.mp h2 with ⟨day, hday, h3⟩
  rcases except_bind_ok.mp h3 with ⟨n, hn, h4⟩
  rcases except_bind_ok.mp h4 with ⟨d, hd, h5⟩
  rcases except_bind_ok.mp h5 with ⟨diff, hdiff, h6⟩
  rcases except_bind_ok.mp h6 with ⟨eh, heh, h7⟩
  have hq := Except.ok.inj h7
  rw [← hq]
  refine ⟨?_, rfl, rfl⟩
  simpa using py_getitem_ok hday

theorem build_daily_task_ok_of_fields (t : RawTaskData) (ht : task_fields_ok t) :
    ∃ q, build_daily_task t = Except.ok q := by
  rcases ht with ⟨hres, hday, hn, hd, hdiff, hh⟩
  rcases mapExceptList_ok_of_forall build_resource_program (t.resources.getD [])
      (fun r hr => build_resource_program_ok_of_fields r (hres r hr)) with ⟨rs, hrs⟩
  rcases Option.isSome_iff_exists.mp hday with ⟨day, hDay⟩
  rcases Option.isSome_iff_exists.mp hn with ⟨n, hN⟩
  rcases Option.isSome_iff_exists.mp hd with ⟨d, hD⟩
  rcases Option.isSome_iff_exists.mp hdiff with ⟨diff, hDiff⟩
  rcases Option.isSome_iff_exists.mp hh with ⟨eh, hH⟩
  exact ⟨_, by unfold build_daily_task; rw [hrs, hDay, hN, hD, hDiff, hH]; rfl⟩

theorem apply_report_length (tasks : List DailyTask) (day : Int) (cp : ℚ) :
    (apply_report tasks day cp).length = tasks.length := by
  simp [apply_report]

theorem apply_report_get (tasks : List DailyTask) (day : Int) (cp : ℚ)
    (i : Nat) (h1 : i < tasks.length) (h2 : i < (apply_report tasks day cp).length) :
    (apply_report tasks day cp).get ⟨i, h2⟩ =
      if (tasks.get ⟨i, h1⟩).day = day
      then { tasks.get ⟨i, h1⟩ with progress := cp, status := determine_status cp }
      else tasks.get ⟨i, h1⟩ := by
  simp [apply_report]

theorem apply_reports_frame (reports : List ProgressData) :
    ∀ tasks : List DailyTask,
      (∀ r ∈ reports, ∃ d, py_int_of_string r.node_id = some d) →
      ∃ ts, apply_reports tasks reports = Except.ok ts ∧
        ts.length = tasks.length ∧
        ∀ i (h1 : i < tasks.length) (h2 : i < ts.length),
          (∀ r ∈ reports, py_int_of_string r.node_id ≠ some (tasks.get ⟨i, h1⟩).day) →
          ts.get ⟨i, h2⟩ = tasks.get ⟨i, h1⟩ := by
  induction reports with
  | nil =>
    intro tasks _
    exact ⟨tasks, rfl, rfl, fun i h1 h2 _ => rfl⟩
  | cons p rest ih =>
    intro tasks hparse
    rcases hparse p (List.mem_cons_self p rest) with ⟨d, hd⟩
    rcases ih (apply_report tasks d p.completion_percentage)
        (fun r hr => hparse r (List.mem_cons_of_mem p hr)) with ⟨ts, hts, hlen, hframe⟩
    refine ⟨ts, ?_, ?_, ?_⟩
    · show apply_reports tasks (p :: rest) = Except.ok ts
      unfold apply_reports
      rw [hd]
      exact hts
    · rw [hlen, apply_report_length]
    · intro i h1 h2 hmiss
      have h1b : i < (apply_report tasks d p.completion_percentage).length := by
        rw [apply_report_length]; exact h1
      have hne : ¬ (tasks.get ⟨i, h1⟩).day = d := by
        intro hc
        apply hmiss p (List.mem_cons_self p rest)
        rw [hc]
        exact hd
      have hsame : (apply_report tasks d p.completion_percentage).get ⟨i, h1b⟩ =
          tasks.get ⟨i, h1⟩ := by
        rw [apply_report_get tasks d p.completion_percentage i h1 h1b, if_neg hne]
      have hmiss2 : ∀ r ∈ rest, py_int_of_string r.node_id ≠
          some (((apply_report tasks d p.completion_percentage).get ⟨i, h1b⟩).day) := by
        intro r hr
        rw [hsame]
        exact hmiss r (List.mem_cons_of_mem p hr)
      have hstep := hframe i h1b h2 hmiss2
      rw [hstep, hsame]

theorem apply_reports_error (reports : List ProgressData) :
    ∀ tasks : List DailyTask,
      (∃ r ∈ reports, py_int_of_string r.node_id = none) →
      ∃ e, apply_reports tasks reports = Except.error e := by
  induction reports with
  | nil =>
    intro tasks h
    rcases h with ⟨r, hr, _⟩
    simp at hr
  | cons p rest ih =>
    intro tasks h
    cases hp : py_int_of_string p.node_id with
    | none =>
      refine ⟨PyErr.valueError ("invalid literal for int() with base 10: " ++ p.node_id), ?_⟩
      show apply_reports tasks (p :: rest) = _
      unfold apply_reports
      rw [hp]
    | some d =>
      rcases h with ⟨r, hr, hrnone⟩
      rcases List.mem_cons.mp hr with hcase | hcase
      · rw [hcase, hp] at hrnone
        exact absurd hrnone (by simp)
      · rcases ih (apply_report tasks d p.completion_percentage) ⟨r, hcase, hrnone⟩
          with ⟨e, he⟩
        refine ⟨e, ?_⟩
        show apply_reports tasks (p :: rest) = _
        unfold apply_reports
        rw [hp]
        exact he

theorem update_task_progress_ok_iff (tasks : List DailyTask) (expected : ℚ)
    (reports : List ProgressData) (ccs : Option (List ContextChange))
    (ts : List DailyTask) (d : ℚ) :
    update_task_progress tasks expected reports ccs = Except.ok (ts, d) ↔
      apply_reports tasks reports = Except.ok ts ∧
      d = adjust_completion_date expected ccs := by
  unfold update_task_progress
  rw [except_bind_ok]
  constructor
  · rintro ⟨ts2, hts2, hok⟩
    have hpair := Except.ok.inj hok
    have h1 : ts2 = ts := congrArg Prod.fst hpair
    have h2 : adjust_completion_date expected ccs = d := congrArg Prod.snd hpair
    exact ⟨h1 ▸ hts2, h2.symm⟩
  · rintro ⟨h1, h2⟩
    exact ⟨ts, h1, by rw [h2]⟩

/-- C1: status is a pure function of progress — `0` maps to
`not_started`, any value strictly between `0` and `100` to `in_progress`,
and any value `≥ 100` (in particular exactly `100`) to `completed`. -/
theorem determine_status_spec (p : ℚ) :
    (p = 0 → determine_status p = "not_started") ∧
    (0 < p → p < 100 → determine_status p = "in_progress") ∧
    (100 ≤ p → determine_status p = "completed") := by
  refine ⟨fun h => ?_, fun h1 h2 => ?_, fun h => ?_⟩
  · simp [determine_status, h]
  · have hne : p ≠ 0 := ne_of_gt h1
    simp [determine_status, hne, h2]
  · have hne : p ≠ 0 := by intro hc; rw [hc] at h; norm_num at h
    have hnlt : ¬ p < 100 := not_lt.mpr h
    simp [determine_status, hne, hnlt]

/-- C1 witness: the three cases at the boundary values 0, 50 and exactly 100. -/
theorem determine_status_spec_witness :
    determine_status 0 = "not_started" ∧
    determine_status 50 = "in_progress" ∧
    determine_status 100 = "completed" :=
  ⟨(determine_status_spec 0).1 rfl,
   (determine_status_spec 50).2.1 (by norm_num) (by norm_num),
   (determine_status_spec 100).2.2 (by norm_num)⟩

/-- C2 counterexample: a progress report with `completion_percentage = 150`
does not fail — `update_task_progress` stores 150 verbatim on the matching
task, derives status `completed`, and returns the changed plan; no
`InvalidProgressValueError` is raised (none exists in the code). -/
theorem update_overrange_succeeds_cx :
    update_task_progress [sample_task] 0
      [{ node_id := "1", completion_percentage := 150, time_spent := 0 }] none =
    Except.ok ([{ sample_task with progress := 150, status := "completed" }], 0) := rfl

/-- C2 (amended): an out-of-range completion percentage — below 0 or above
100 — is neither rejected nor clamped: for any report whose target parses
to an integer day, the update succeeds, stores the raw percentage verbatim
on every matching task, and derives the status from the raw value
(`completed` above 100, `in_progress` below 0). -/
theorem update_task_progress_no_range_check (tasks : List DailyTask) (expected : ℚ)
    (r : ProgressData) (day : Int) (hday : py_int_of_string r.node_id = some day)
    (hout : r.completion_percentage < 0 ∨ 100 < r.completion_percentage) :
    update_task_progress tasks expected [r] none =
      Except.ok (tasks.map (fun t =>
        if t.day = day
        then { t with progress := r.completion_percentage,
                      status := if 100 < r.completion_percentage
                                then "completed" else "in_progress" }
        else t), expected) := by
  rw [update_task_progress_ok_iff]
  refine ⟨?_, rfl⟩
  have hst : determine_status r.completion_percentage =
      (if 100 < r.completion_percentage then "completed" else "in_progress") := by
    rcases hout with hneg | hover
    · have h100 : ¬ 100 < r.completion_percentage :=
        not_lt.mpr (le_of_lt (lt_trans hneg (by norm_num)))
      rw [if_neg h100]
      exact determine_status_of_neg hneg
    · rw [if_pos hover]
      exact determine_status_of_ge100 (le_of_lt hover)
  unfold apply_reports
  rw [hday]
  unfold apply_reports
  unfold apply_report
  simp only [hst]

/-- C2 witness: a report of 250 percent and a report of −25 percent on
day 1 both go through verbatim, with statuses `completed` and
`in_progress` respectively. -/
theorem update_task_progress_no_range_check_witness :
    (update_task_progress [sample_task] 5
      [{ node_id := "01", completion_percentage := 250, time_spent := 2 }] none =
      Except.ok ([sample_task].map (fun t =>
        if t.day = 1
        then { t with progress := 250,
                      status := if (100 : ℚ) < 250 then "completed" else "in_progress" }
        else t), 5)) ∧
    (update_task_progress [sample_task] 5
      [{ node_id := "1", completion_percentage := -25, time_spent := 0 }] none =
      Except.ok ([sample_task].map (fun t =>
        if t.day = 1
        then { t with progress := -25,
                      status := if (100 : ℚ) < -25 then "completed" else "in_progress" }
        else t), 5)) :=
  ⟨update_task_progress_no_range_check [sample_task] 5
    { node_id := "01", completion_percentage := 250, time_spent := 2 } 1
    (by decide) (Or.inr (by norm_num)),
   update_task_progress_no_range_check [sample_task] 5
    { node_id := "1", completion_percentage := -25, time_spent := 0 } 1
    (by decide) (Or.inl (by norm_num))⟩

/-- C3 counterexample: a progress report whose target `"x"` resolves to no
existing task is not silently ignored — the update raises a `ValueError`
from `int("x")` before anything is applied, so the claimed "no error"
fails for non-numeric unresolvable targets. -/
theorem update_unresolved_target_raises_cx :
    update_task_progress [sample_task] 0
      [{ node_id := "x", completion_percentage := 50, time_spent := 0 }] none =
    Except.error (PyErr.valueError "invalid literal for int() with base 10: x") := rfl

/-- C3 (amended): when the target of every report parses as an integer, the
update succeeds; reports whose day matches no task are silently ignored,
every task not addressed by any report keeps its prior value unchanged,
and the completion date moves only by the context-change adjustment. -/
theorem update_task_progress_frame (tasks : List DailyTask) (expected : ℚ)
    (reports : List ProgressData) (ccs : Option (List ContextChange))
    (hparse : ∀ r ∈ reports, ∃ d, py_int_of_string r.node_id = some d) :
    ∃ ts, update_task_progress tasks expected reports ccs =
        Except.ok (ts, adjust_completion_date expected ccs) ∧
      ts.length = tasks.length ∧
      ∀ i (h1 : i < tasks.length) (h2 : i < ts.length),
        (∀ r ∈ reports, py_int_of_string r.node_id ≠ some (tasks.get ⟨i, h1⟩).day) →
        ts.get ⟨i, h2⟩ = tasks.get ⟨i, h1⟩ := by
  rcases apply_reports_frame reports tasks hparse with ⟨ts, hts, hlen, hframe⟩
  exact ⟨ts,
    (update_task_progress_ok_iff tasks expected reports ccs ts
      (adjust_completion_date expected ccs)).mpr ⟨hts, rfl⟩, hlen, hframe⟩

/-- C3 witness: a report for day 7 against a one-task plan (day 1): the
update succeeds and the plan part of the output is untouched. -/
theorem update_task_progress_frame_witness :
    ∃ ts, update_task_progress [sample_task] 0 [report_day7] none =
        Except.ok (ts, adjust_completion_date 0 none) ∧
      ts.length = [sample_task].length ∧
      ∀ i (h1 : i < [sample_task].length) (h2 : i < ts.length),
        (∀ r ∈ [report_day7],
          py_int_of_string r.node_id ≠ some ([sample_task].get ⟨i, h1⟩).day) →
        ts.get ⟨i, h2⟩ = [sample_task].get ⟨i, h1⟩ :=
  update_task_progress_frame [sample_task] 0 [report_day7] none
    (by
      intro r hr
      rw [List.mem_singleton] at hr
      subst hr
      exact ⟨7, by decide⟩)

/-- C4: on every successful update, an absent or empty context-change batch
leaves the expected-completion date untouched, and a non-empty batch shifts
it by exactly the truncation-toward-zero of (sum of impact factors × 30)
days (impact factors modelled as exact rationals). -/
theorem update_task_progress_date_shift (tasks : List DailyTask) (expected : ℚ)
    (reports : List ProgressData) (ccs : Option (List ContextChange))
    (ts : List DailyTask) (d : ℚ)
    (h : update_task_progress tasks expected reports ccs = Except.ok (ts, d)) :
    ((ccs = none ∨ ccs = some []) → d = expected) ∧
    (∀ l, ccs = some l → l ≠ [] →
      d = expected + (py_trunc ((l.map (fun c => c.impact_factor)).sum * 30) : ℚ)) := by
  have hd : d = adjust_completion_date expected ccs :=
    ((update_task_progress_ok_iff tasks expected reports ccs ts d).mp h).2
  constructor
  · rintro (hnone | hnil)
    · rw [hd, hnone]; rfl
    · rw [hd, hnil]; rfl
  · intro l hl hne
    rw [hd, hl]
    show (if l = [] then expected
          else expected + (py_trunc ((l.map (fun c => c.impact_factor)).sum * 30) : ℚ)) = _
    rw [if_neg hne]

/-- C4 witness: the example of spec §8 — impact factors 0.2 and −0.5 sum to
−0.3, and trunc(−0.3 × 30) = −9 days is applied to the date. -/
theorem update_task_progress_date_shift_witness :
    adjust_completion_date 100 (some [cc_travel, cc_pace]) =
      100 + (py_trunc (([cc_travel, cc_pace].map (fun c => c.impact_factor)).sum * 30) : ℚ) ∧
    adjust_completion_date 100 (some [cc_travel, cc_pace]) = 91 :=
  ⟨(update_task_progress_date_shift [] 100 [] (some [cc_travel, cc_pace]) []
      (adjust_completion_date 100 (some [cc_travel, cc_pace])) rfl).2
      [cc_travel, cc_pace] rfl (by simp),
   by
    show (if ([cc_travel, cc_pace] : List ContextChange) = [] then (100 : ℚ)
          else 100 + (py_trunc (([cc_travel, cc_pace].map
            (fun c => c.impact_factor)).sum * 30) : ℚ)) = 91
    rw [if_neg (by simp : ¬ ([cc_travel, cc_pace] : List ContextChange) = [])]
    have h1 : (([cc_travel, cc_pace].map (fun c => c.impact_factor)).sum : ℚ) * 30 = -9 := by
      simp [cc_travel, cc_pace]
      norm_num
    rw [h1]
    have h2 : py_trunc (-9 : ℚ) = -9 := by
      unfold py_trunc
      rw [if_pos (by norm_num : (-9 : ℚ) < 0)]
      rw [show ((-9 : ℚ)) = ((-9 : ℤ) : ℚ) by norm_num, Int.ceil_intCast]
    rw [h2]
    norm_num⟩

/-- C5 counterexample: normalizing `ex_tree` assigns node `"a"` the raw
depth 5, while re-deriving its depth from the parent chain gives 1 — the
normalizer trusts the raw depth value, so the round-trip fails. -/
theorem depth_roundtrip_fails_cx :
    create_nodes_from_llm_output ex_tree = Except.ok ex_tree_nodes ∧
    (lookup_node ex_tree_nodes "a").map (fun n => n.depth) = some 5 ∧
    (chain_depth ex_tree_nodes ex_tree_nodes.length "a").map (fun k => (k : Int)) = some 1 ∧
    (lookup_node ex_tree_nodes "a").map (fun n => n.depth) ≠
      (chain_depth ex_tree_nodes ex_tree_nodes.length "a").map (fun k => (k : Int)) :=
  ⟨rfl, rfl, rfl, by decide⟩

/-- C5 (amended): the normalizer copies the depth of each node verbatim from the
raw input (default 0 when the key is absent) and never recomputes it from
the parent chain; identifiers and parent links also pass through verbatim. -/
theorem create_nodes_depth_verbatim (skills : List (String × RawNodeData))
    (ns : List (String × SkillNode))
    (h : create_nodes_from_llm_output skills = Except.ok ns) :
    ns.length = skills.length ∧
    ∀ i (h1 : i < skills.length) (h2 : i < ns.length),
      (ns.get ⟨i, h2⟩).1 = (skills.get ⟨i, h1⟩).1 ∧
      (ns.get ⟨i, h2⟩).2.depth = ((skills.get ⟨i, h1⟩).2.depth).getD 0 ∧
      (ns.get ⟨i, h2⟩).2.parent_id = (skills.get ⟨i, h1⟩).2.parent_id := by
  refine ⟨mapExceptList_ok_length build_node skills ns h, ?_⟩
  intro i h1 h2
  have hget := mapExceptList_ok_get build_node skills ns h i h1 h2
  have hb := build_node_ok hget
  exact ⟨hb.1, hb.2.2.2.2.1, hb.2.2.1⟩

/-- C5 witness: the concrete two-node tree normalizes to a same-length node
dictionary (hypothesis discharged by evaluation). -/
theorem create_nodes_depth_verbatim_witness :
    ex_tree_nodes.length = ex_tree.length :=
  (create_nodes_depth_verbatim ex_tree ex_tree_nodes rfl).1

/-- C6 counterexample: `ex_badtree` — two parents both claiming the
unresolvable child `"x"` — normalizes successfully (no
`InvalidTreeStructureError` exists in the code) and the result violates
the partition invariant of spec §3. -/
theorem tree_invariant_not_checked_cx :
    create_nodes_from_llm_output ex_badtree = Except.ok ex_badtree_nodes ∧
    ¬ tree_partition_invariant ex_badtree_nodes :=
  ⟨rfl, by decide⟩

/-- C6 (amended): the normalizer performs no structural verification — any
raw mapping whose entries carry the required fields is accepted, children
lists taken verbatim, whatever tree structure they describe. -/
theorem create_nodes_no_structure_check (skills : List (String × RawNodeData))
    (hfields : ∀ p ∈ skills, node_fields_ok p.2) :
    ∃ ns, create_nodes_from_llm_output skills = Except.ok ns :=
  mapExceptList_ok_of_forall build_node skills
    (fun p hp => build_node_ok_of_fields p (hfields p hp))

/-- C6 witness: the invariant-violating `ex_badtree` is accepted. -/
theorem create_nodes_no_structure_check_witness :
    ∃ ns, create_nodes_from_llm_output ex_badtree = Except.ok ns :=
  create_nodes_no_structure_check ex_badtree (by decide)

/-- C7: every node and every daily task produced by the normalizer has
progress 0.0 and status `not_started`, regardless of the raw input. -/
theorem normalized_progress_zero :
    (∀ (skills : List (String × RawNodeData)) (ns : List (String × SkillNode)),
      create_nodes_from_llm_output skills = Except.ok ns →
      ∀ p ∈ ns, p.2.progress = 0 ∧ p.2.status = "not_started") ∧
    (∀ (raw : List RawTaskData) (ts : List DailyTask),
      build_daily_tasks raw = Except.ok ts →
      ∀ t ∈ ts, t.progress = 0 ∧ t.status = "not_started") := by
  constructor
  · intro skills ns h p hp
    rcases mapExceptList_ok_mem build_node skills ns h p hp with ⟨a, _, ha⟩
    have hb := build_node_ok ha
    exact ⟨hb.2.2.2.2.2.1, hb.2.2.2.2.2.2⟩
  · intro raw ts h t htm
    rcases mapExceptList_ok_mem build_daily_task raw ts h t htm with ⟨a, _, ha⟩
    have hb := build_daily_task_ok ha
    exact ⟨hb.2.1, hb.2.2⟩

/-- C7 witness: the root node of the normalized example tree starts
unstarted. -/
theorem normalized_progress_zero_witness :
    ex_root_node.2.progress = 0 ∧ ex_root_node.2.status = "not_started" :=
  normalized_progress_zero.1 ex_tree ex_tree_nodes rfl ex_root_node (by decide)

/-- C8 counterexample: a raw program holding the single day number 42
normalizes successfully (`generate_skill_program` has no day check and no
`InvalidScheduleError` exists), and its output violates the 1..30 day
invariant. -/
theorem schedule_not_validated_cx :
    build_daily_tasks [raw_day42] = Except.ok [task_day42] ∧
    ¬ day_invariant [task_day42] :=
  ⟨rfl, by decide⟩

/-- C8 (amended): the 30-day variant performs no day-number validation —
any raw batch whose entries carry the required fields builds successfully,
and day numbers pass through verbatim in input order. -/
theorem daily_tasks_days_passthrough (raw : List RawTaskData)
    (hfields : ∀ t ∈ raw, task_fields_ok t) :
    ∃ ts, build_daily_tasks raw = Except.ok ts ∧
      ts.map (fun t => some t.day) = raw.map (fun t => t.day) := by
  rcases mapExceptList_ok_of_forall build_daily_task raw
      (fun t ht => build_daily_task_ok_of_fields t (hfields t ht)) with ⟨ts, hts⟩
  refine ⟨ts, hts, ?_⟩
  have hlen := mapExceptList_ok_length build_daily_task raw ts hts
  apply List.ext_get
  · simp [hlen]
  · intro i h1 h2
    have h1b : i < ts.length := by simpa using h1
    have h2b : i < raw.length := by simpa using h2
    have hday :=
      (build_daily_task_ok (mapExceptList_ok_get build_daily_task raw ts hts i h2b h1b)).1
    simp only [List.get_eq_getElem, List.getElem_map]
    exact hday.symm

/-- C8 witness: the out-of-range day 42 batch is accepted with its day
passed through. -/
theorem daily_tasks_days_passthrough_witness :
    ∃ ts, build_daily_tasks [raw_day42] = Except.ok ts ∧
      ts.map (fun t => some t.day) = [raw_day42].map (fun t => t.day) :=
  daily_tasks_days_passthrough [raw_day42] (by decide)

theorem build_node_error_noname (p : String × RawNodeData)
    (hres : ∀ r ∈ p.2.resources.getD [], resource_fields_ok r)
    (hname : p.2.name = none) :
    build_node p = Except.error (PyErr.keyError "name") := by
  rcases mapExceptList_ok_of_forall build_resource_node (p.2.resources.getD [])
      (fun r hr => build_resource_node_ok_of_fields r (hres r hr)) with ⟨rs, hrs⟩
  unfold build_node
  rw [hrs, hname]
  rfl

/-- C9 counterexample: a raw entry missing its required `name` makes
normalization fail with the generic Python `KeyError` naming the missing
field `"name"` — not a `MalformedPlanError` (no such error exists in the
code) and not naming the offending identifier `"n1"`. -/
theorem missing_field_keyerror_cx :
    create_nodes_from_llm_output [("n1", raw_noname)] =
      Except.error (PyErr.keyError "name") ∧
    PyErr.keyError "name" ≠ PyErr.keyError "n1" :=
  ⟨rfl, by decide⟩

/-- C9 (amended): in any batch whose earlier entries are well-formed, an
entry with well-formed resources but no `name` key aborts normalization
with the generic `KeyError "name"` (naming the field, not the identifier
of the entry). -/
theorem missing_name_raises_keyerror (pre : List (String × RawNodeData))
    (id : String) (d : RawNodeData) (post : List (String × RawNodeData))
    (hpre : ∀ p ∈ pre, node_fields_ok p.2)
    (hres : ∀ r ∈ d.resources.getD [], resource_fields_ok r)
    (hname : d.name = none) :
    create_nodes_from_llm_output (pre ++ (id, d) :: post) =
      Except.error (PyErr.keyError "name") := by
  unfold create_nodes_from_llm_output
  apply mapExceptList_append_error
  · intro p hp
    exact build_node_ok_of_fields p (hpre p hp)
  · have hb : build_node (id, d) = Except.error (PyErr.keyError "name") :=
      build_node_error_noname (id, d) hres hname
    show mapExceptList build_node ((id, d) :: post) = _
    unfold mapExceptList
    rw [hb]
    rfl

/-- C9 witness: a good entry followed by a nameless one fails with
`KeyError "name"`. -/
theorem missing_name_raises_keyerror_witness :
    create_nodes_from_llm_output ([("g", raw_good)] ++ ("n1", raw_noname) :: []) =
      Except.error (PyErr.keyError "name") :=
  missing_name_raises_keyerror [("g", raw_good)] "n1" raw_noname []
    (by decide) (by decide) rfl

/-- C10: a batch containing a progress report whose `node_id` is not the
decimal string of an integer makes the whole update fail — no updated plan
is produced — unlike the silent skip applied to integer targets that match
no task. -/
theorem update_nonint_target_errors (tasks : List DailyTask) (expected : ℚ)
    (reports : List ProgressData) (ccs : Option (List ContextChange))
    (hbad : ∃ r ∈ reports, py_int_of_string r.node_id = none) :
    ∃ e, update_task_progress tasks expected reports ccs = Except.error e := by
  rcases apply_reports_error reports tasks hbad with ⟨e, he⟩
  refine ⟨e, ?_⟩
  unfold update_task_progress
  exact except_bind_error he

/-- C10 witness: the target `"day-1"` aborts the whole update. -/
theorem update_nonint_target_errors_witness :
    ∃ e, update_task_progress [sample_task] 0 [report_bad] none = Except.error e :=
  update_nonint_target_errors [sample_task] 0 [report_bad] none
    ⟨report_bad, by decide, by decide⟩

end SkillMapSvc
